import Mathlib

/-!
Verification model of the Recruiter-Copilot candidate pipeline.

Shallow embedding of the deterministic parsing / validation / scoring core:
* `ResumeParser` — fact extraction from résumé text (app/agents/analyst/resume_parser.py)
* `Validator`    — cross-source plausibility flags   (app/agents/analyst/validator.py)
* `Scorer`       — weighted composite score          (app/agents/architect/scorer.py)

Python floats are modelled as rationals (ℚ); `round(x, 1)` is modelled as
round-half-to-even at one decimal, which agrees with CPython on every value
this pipeline rounds (all ties that occur are dyadic and hence exact floats).
Python's regex engine is not re-implemented: where the source calls
`re.finditer` / `re.findall` / `re.search`, the match results are passed to the
model as explicit inputs (see `RegexOracle` and the match-list parameters), and
everything the source computes *from* those matches is modelled faithfully.
-/

namespace RecruiterCopilot

/-- Model of CPython `round(x, 1)`: round half to even at one decimal place. -/
def roundHalfEven (x : ℚ) : ℤ :=
  if Int.fract x = 1/2 then
    (if ⌊x⌋ % 2 = 0 then ⌊x⌋ else ⌊x⌋ + 1)
  else
    round x

/-- `round1 x` models Python `round(x, 1)`. -/
def round1 (x : ℚ) : ℚ := (roundHalfEven (10 * x) : ℚ) / 10

/-- `clamp10 x` models Python `max(0, min(10, x))`. -/
def clamp10 (x : ℚ) : ℚ := max 0 (min 10 x)

/-- Python substring test `needle in hay` (on strings). -/
def substrOf (needle hay : String) : Bool :=
  decide (needle.toList <:+: hay.toList)

/-- Python `str.strip()` on a character list (strip leading and trailing
whitespace). -/
def pyStripL (l : List Char) : List Char :=
  ((l.dropWhile Char.isWhitespace).reverse.dropWhile Char.isWhitespace).reverse

/-- Python `str.strip()`. -/
def pyStrip (s : String) : String := String.mk (pyStripL s.toList)

/-- Python `str.lower()` (ASCII case folding suffices for this pipeline). -/
def pyLower (s : String) : String := String.mk (s.toList.map Char.toLower)

/-- Split a character list at every character satisfying `p`, keeping empty
pieces — the behaviour of `re.split` with a single-character class, and of
`str.split(sep)` for a one-character separator. -/
def splitChars (p : Char → Bool) : List Char → List (List Char)
  | [] => [[]]
  | c :: cs =>
      let r := splitChars p cs
      if p c then [] :: r
      else
        match r with
        | h :: t => (c :: h) :: t
        | [] => [[c]]

/-- String-level wrapper for `splitChars`. -/
def splitBy (p : Char → Bool) (s : String) : List String :=
  (splitChars p s.toList).map String.mk

/-- Decimal value of a digit list, if the list is non-empty and all digits
(Python `int(s)` on the strings `strptime` hands it). -/
def digitsToNat? (l : List Char) : Option ℕ :=
  if l ≠ [] ∧ l.all Char.isDigit then
    some (l.foldl (fun acc c => 10 * acc + (c.toNat - '0'.toNat)) 0)
  else none

/-- `Option ℕ` value of a numeric string. -/
def pyToNat? (s : String) : Option ℕ := digitsToNat? s.toList

/-- Python slice `s[:n]` (first `n` characters). -/
def pyTake (s : String) (n : ℕ) : String := String.mk (s.toList.take n)

/-- Year/month part of a Python `datetime`; the only components the pipeline
arithmetic ever reads. -/
structure Date where
  year : ℤ
  month : ℤ
  deriving DecidableEq

/-- A full clock reading (`datetime.now()` / `datetime.utcnow()`); the day is
kept because it is part of the stored `parsed_at` timestamp. -/
structure DateTime where
  year : ℤ
  month : ℤ
  day : ℤ
  deriving DecidableEq

/-- The year/month part actually used by duration arithmetic. -/
def DateTime.toDate (d : DateTime) : Date := ⟨d.year, d.month⟩

/-- A value stored in a flag's `evidence` dict. -/
inductive EvVal where
  | i (n : ℤ)
  | s (v : String)
  | strs (l : List String)
  deriving DecidableEq

/-- A validation flag: `\x7btype, severity, description, evidence\x7d`.
`severity` is optional because downstream readers access it with
`flag.get("severity", "LOW")`. -/
structure Flag where
  type : String
  severity : Option String
  description : String
  evidence : List (String × EvVal)
  deriving DecidableEq

namespace Validator

/-- `Validator.TECH_RELEASE_DATES`, in source (= Python dict iteration) order. -/
def TECH_RELEASE_DATES : List (String × ℤ) :=
  [("react", 2013), ("react native", 2015), ("vue", 2014), ("vue.js", 2014),
   ("angular", 2016), ("svelte", 2016), ("next.js", 2016), ("tailwind", 2017),
   ("tailwindcss", 2017),
   ("fastapi", 2018), ("nestjs", 2017), ("deno", 2018),
   ("kubernetes", 2014), ("terraform", 2014), ("github actions", 2019),
   ("docker", 2013), ("aws lambda", 2014),
   ("pytorch", 2016), ("tensorflow", 2015), ("gpt", 2018), ("langchain", 2022),
   ("openai api", 2020), ("llm", 2020),
   ("rust", 2010), ("go", 2009), ("golang", 2009), ("kotlin", 2011),
   ("swift", 2014), ("typescript", 2012),
   ("snowflake", 2014), ("cockroachdb", 2015), ("planetscale", 2018)]

/-- Body of the per-match loop of `Validator._validate_experience_claims`
(lines 152–168): look the matched phrase up against `TECH_RELEASE_DATES`
(first entry whose key is a substring wins, then `break`), and emit a HIGH
flag when the claimed years exceed the buffered maximum. `years` and `tech`
are one `(years, technology-phrase)` regex match, already disambiguated by the
`match[0].isdigit()` test of the source. -/
def techCheck (currentYear : ℤ) (years : ℤ) (tech : String) : List Flag :=
  match TECH_RELEASE_DATES.find? (fun p => substrOf p.1 tech) with
  | none => []
  | some p =>
      let maxPossibleYears := currentYear - p.2
      if maxPossibleYears + 1 < years then
        [{ type := "EXPERIENCE_MISMATCH"
           severity := some "HIGH"
           description := "Claims " ++ toString years ++
             " years experience with " ++ p.1 ++ ", but it was released in " ++
             toString p.2 ++ " (" ++ toString maxPossibleYears ++ " years ago)"
           evidence := [("claimed_years", .i years),
                        ("max_possible_years", .i maxPossibleYears),
                        ("technology", .s p.1),
                        ("release_year", .i p.2)] }]
      else []

/-- `Validator._validate_experience_claims`, downstream of the regex scan: the
list `ms` holds the `(years, technology-phrase)` pairs produced by the three
patterns on `summary + experience raw_text` (the regex engine is an input to
the model). -/
def validateExperienceClaims (currentYear : ℤ) (ms : List (ℤ × String)) :
    List Flag :=
  (ms.map (fun m => techCheck currentYear m.1 m.2)).flatten

/-- Per-flag deduction of `Validator.get_credibility_score`:
HIGH → 3, MEDIUM → 1.5, anything else (including a missing severity) → 0.5. -/
def sevDeduction (f : Flag) : ℚ :=
  let s := f.severity.getD "LOW"
  if s = "HIGH" then 3 else if s = "MEDIUM" then 1.5 else 0.5

/-- `Validator.get_credibility_score` (validator.py lines 312–335). -/
def getCredibilityScore (flags : List Flag) : ℚ :=
  if flags = [] then 10
  else round1 (max 0 (10 - (flags.map sevDeduction).sum))

end Validator

namespace ResumeParser

/-- `ResumeParser.TECH_KEYWORDS`, in source order. -/
def TECH_KEYWORDS : List String :=
  ["python", "javascript", "typescript", "java", "c++", "c#", "go", "golang",
   "rust", "ruby", "php", "swift", "kotlin", "scala", "r", "matlab",
   "react", "angular", "vue", "svelte", "next.js", "nuxt", "html", "css",
   "sass", "tailwind", "bootstrap", "jquery",
   "node.js", "express", "fastapi", "django", "flask", "spring", "rails",
   ".net", "asp.net", "laravel", "nestjs",
   "sql", "postgresql", "mysql", "mongodb", "redis", "elasticsearch",
   "snowflake", "bigquery", "spark", "hadoop", "kafka",
   "aws", "azure", "gcp", "google cloud", "docker", "kubernetes", "terraform",
   "jenkins", "github actions", "ci/cd",
   "tensorflow", "pytorch", "scikit-learn", "pandas", "numpy", "keras",
   "machine learning", "deep learning", "nlp", "computer vision"]

/-- Full month names accepted by `strptime` format `%B` (matched
case-insensitively by CPython). -/
def monthNamesFull : List String :=
  ["january", "february", "march", "april", "may", "june", "july", "august",
   "september", "october", "november", "december"]

/-- Abbreviated month names accepted by `strptime` format `%b`. -/
def monthAbbrevs : List String :=
  ["jan", "feb", "mar", "apr", "may", "jun", "jul", "aug", "sep", "oct",
   "nov", "dec"]

/-- Month number for a `%B` or `%b` month-name token, if any. -/
def parseMonthName (s : String) : Option ℤ :=
  let l := pyLower s
  match monthNamesFull.findIdx? (fun m => m = l) with
  | some i => some ((i : ℤ) + 1)
  | none => (monthAbbrevs.findIdx? (fun m => m = l)).map (fun i => (i : ℤ) + 1)

/-- `strptime` `%Y` field: exactly four digits, and the year must be a valid
`datetime` year (≥ 1; year 0000 raises `ValueError`, which the caller treats
as a failed format). -/
def parseYear4 (s : String) : Option ℤ :=
  match pyToNat? s with
  | some n => if s.length = 4 ∧ 1 ≤ n then some (n : ℤ) else none
  | none => none

/-- `strptime` `%m` field: one or two digits, value 1–12. -/
def parseMM (s : String) : Option ℤ :=
  match pyToNat? s with
  | some n => if (s.length = 1 ∨ s.length = 2) ∧ 1 ≤ n ∧ n ≤ 12
              then some (n : ℤ) else none
  | none => none

/-- Python `str.split()` with no argument: split on whitespace runs,
discarding empty pieces. -/
def pyWhitespaceSplit (s : String) : List String :=
  (splitBy Char.isWhitespace s).filter (fun t => t ≠ "")

/-- `ResumeParser._parse_date`: try `%B %Y`, `%b %Y`, `%m/%Y`, `%Y` in order;
on failure fall back to the current date (`datetime.now()`).  A parsed date
defaults its month to January when only a year is given (strptime default). -/
def parseDate (now : Date) (raw : String) : Date :=
  let s := pyStrip raw
  match pyWhitespaceSplit s with
  | [m, y] =>
      (match parseMonthName m, parseYear4 y with
       | some mo, some yr => ⟨yr, mo⟩
       | _, _ => now)
  | [t] =>
      (match splitBy (fun c => c = '/') t with
       | [m, y] =>
           (match parseMM m, parseYear4 y with
            | some mo, some yr => ⟨yr, mo⟩
            | _, _ => now)
       | _ =>
           (match parseYear4 t with
            | some yr => ⟨yr, 1⟩
            | none => now))
  | _ => now

/-- End-date resolution inside `ResumeParser._calculate_duration`:
"present"/"current"/"now" (case-insensitively) means the current date,
anything else goes through `_parse_date`. -/
def resolveEnd (now : Date) (endRaw : String) : Date :=
  if ["present", "current", "now"].contains (pyLower endRaw) then now
  else parseDate now endRaw

/-- `ResumeParser._calculate_duration`: months between the parsed start and
(resolved) end dates, floored at 0.  Nothing in the modelled body can raise,
so the source's `except: return 0` branch is dead. -/
def calculateDuration (now : Date) (startRaw endRaw : String) : ℤ :=
  let sd := parseDate now startRaw
  let ed := resolveEnd now endRaw
  max 0 ((ed.year - sd.year) * 12 + (ed.month - sd.month))

/-- One `re.finditer` match of a date-pair pattern: positions in the section
string plus the two captured groups. -/
structure RegexMatch where
  start : ℕ
  stop : ℕ
  group1 : String
  group2 : String
  deriving DecidableEq

/-- One experience entry as built by `ResumeParser._extract_experience`
(`title` and `company` are always the literal `None` in the source). -/
structure Experience where
  raw_text : String
  startDate : String
  endDate : String
  duration_months : ℤ
  title : Option String
  company : Option String
  deriving DecidableEq

/-- Python slice `s[a:b]` by character index. -/
def pySlice (s : String) (a b : ℕ) : String :=
  String.mk ((s.toList.drop a).take (b - a))

/-- Entry construction for one date match (resume_parser.py lines 191–211):
window from 200 characters before the match start (floored at 0; ℕ
subtraction) to `endPos`, and the stored `raw_text` is the first 300
characters of that window. -/
def mkEntry (now : Date) (sec : String) (m : RegexMatch) (endPos : ℕ) :
    Experience :=
  { raw_text := pyTake (pySlice sec (m.start - 200) endPos) 300
    startDate := m.group1
    endDate := m.group2
    duration_months := calculateDuration now m.group1 m.group2
    title := none
    company := none }

/-- The per-match loop of `_extract_experience`: the window of each match ends
at the start of the next match, and the last window ends 500 characters after
the match end. -/
def buildEntries (now : Date) (sec : String) : List RegexMatch → List Experience
  | [] => []
  | [m] => [mkEntry now sec m (m.stop + 500)]
  | m :: m2 :: rest => mkEntry now sec m m2.start :: buildEntries now sec (m2 :: rest)

/-- `ResumeParser._extract_experience`, downstream of the regex engine:
`matchesByPattern` lists, for each of the three `DATE_PATTERNS` in priority
order, the `finditer` results on the section; the first pattern with at least
one match wins, and output is capped at 10 entries. -/
def extractExperience (now : Date) (sect : Option String)
    (matchesByPattern : List (List RegexMatch)) : List Experience :=
  match sect with
  | none => []
  | some sec =>
      if sec = "" then []
      else
        (buildEntries now sec
          (((matchesByPattern.find? (fun l => !l.isEmpty)).getD []))).take 10

/-- `ResumeParser._calculate_total_experience`. -/
def calcTotalExperience (entries : List Experience) : ℚ :=
  round1 (((entries.map (fun e => e.duration_months)).sum : ℚ) / 12)

/-- The character class of the source regex `[@|www\.|http|\.com]` used by the
name heuristic of `_extract_contact`: inside `[...]` the alternation bars and
repeated letters collapse to a set of single characters. -/
def bannedNameChars : List Char :=
  ['@', '|', 'w', '.', 'h', 't', 'p', 'c', 'o', 'm']

/-- `re.search(r"[@|www\.|http|\.com]", line)` is truthy exactly when the line
contains one of the characters of the class. -/
def hasBannedNameChar (l : String) : Bool :=
  l.toList.any (fun c => bannedNameChars.contains c)

/-- `len(line.split())`. -/
def pyTokenCount (l : String) : ℕ := (pyWhitespaceSplit l).length

/-- The name heuristic of `ResumeParser._extract_contact` (lines 165–173):
first of the first five lines of the stripped text whose stripped form is
non-empty, has no character of the class, and at most four
whitespace-separated tokens. -/
def extractName (text : String) : Option String :=
  ((splitBy (fun c => c = '\n') (pyStrip text)).take 5).findSome? (fun line =>
    let l := pyStrip line
    if l ≠ "" ∧ hasBannedNameChar l = false then
      (if pyTokenCount l ≤ 4 then some l else none)
    else none)

/-- Python `digit count ≥ 10` filter on the phone match:
`len(re.sub(r"\D", "", phone)) >= 10`. -/
def digitCount (s : String) : ℕ := (s.toList.filter Char.isDigit).length

/-- Contact record of `_extract_contact` (the `location` key is never
assigned in the source). -/
structure Contact where
  name : Option String
  email : Option String
  phone : Option String
  linkedin : Option String
  github : Option String
  location : Option String
  deriving DecidableEq

/-- An education mention (`_extract_education`). -/
structure EducationEntry where
  degree_mention : String
  section_text : String
  deriving DecidableEq

/-- One `\x7bkeyword, count\x7d` pair of the skill-keyword table. -/
structure SkillKeyword where
  keyword : String
  count : ℤ
  deriving DecidableEq

/-- Results of every `re` call the parser makes, passed to the model as an
input: the regex engine itself is an external component here, everything
computed from its matches is modelled from the source. -/
structure RegexOracle where
  emailMatch : Option String
  phoneMatch : Option String
  linkedinHandle : Option String
  githubHandle : Option String
  experienceSection : Option String
  educationSection : Option String
  skillsSection : Option String
  certificationsSection : Option String
  summarySection : Option String
  experienceMatches : List (List RegexMatch)
  educationMatches : List String
  keywordCounts : String → ℕ

/-- `ResumeParser._extract_contact`, with the four contact regex results
supplied by the oracle and the name heuristic modelled directly. -/
def extractContact (text : String) (rx : RegexOracle) : Contact :=
  { name := extractName text
    email := rx.emailMatch
    phone :=
      match rx.phoneMatch with
      | some p => if 10 ≤ digitCount p then some p else none
      | none => none
    linkedin := rx.linkedinHandle.map (fun h => "https://linkedin.com/in/" ++ h)
    github := rx.githubHandle.map (fun h => "https://github.com/" ++ h)
    location := none }

/-- `ResumeParser._extract_education`: each degree-pattern match becomes a
mention carrying the first 500 characters of the section. -/
def extractEducation (sect : Option String) (ms : List String) :
    List EducationEntry :=
  match sect with
  | none => []
  | some s => if s = "" then [] else ms.map (fun m => ⟨m, pyTake s 500⟩)

/-- Characters of the `re.split(r"[,|•|\n|;]", ...)` class in
`_extract_skills`. -/
def skillDelims : List Char := [',', '|', '•', '\n', ';']

/-- `ResumeParser._extract_skills`. -/
def extractSkills (sect : Option String) : List String :=
  match sect with
  | none => []
  | some s =>
      if s = "" then []
      else
        (((splitBy (fun c => skillDelims.contains c) s).map pyStrip).filter
          (fun t => t ≠ "" && 1 < t.length && t.length < 50)).take 30

/-- `ResumeParser._extract_certifications`. -/
def extractCertifications (sect : Option String) : List String :=
  match sect with
  | none => []
  | some s =>
      if s = "" then []
      else
        (((splitBy (fun c => c = '\n' ∨ c = '•') s).map pyStrip).filter
          (fun t => t ≠ "" && 5 < t.length)).take 10

/-- `ResumeParser._extract_summary`: first 1000 characters, or `None`. -/
def extractSummary (sect : Option String) : Option String :=
  match sect with
  | none => none
  | some s => if s = "" then none else some (pyTake s 1000)

/-- Stable descending insertion by `count` (ties keep first-come order), the
behaviour of Python's stable `list.sort(key=..., reverse=True)`. -/
def insertByCountDesc (x : SkillKeyword) :
    List SkillKeyword → List SkillKeyword
  | [] => [x]
  | y :: ys =>
      if y.count < x.count then x :: y :: ys else y :: insertByCountDesc x ys

/-- Sort a skill-keyword table descending by count, stably. -/
def sortByCountDesc (l : List SkillKeyword) : List SkillKeyword :=
  l.foldl (fun acc x => insertByCountDesc x acc) []

/-- `ResumeParser._extract_skill_keywords`: whole-word occurrence counts (the
`counts` function is the regex oracle) over the fixed vocabulary, keeping
keywords with count ≥ 1, sorted descending by count. -/
def extractSkillKeywords (counts : String → ℕ) : List SkillKeyword :=
  sortByCountDesc
    (((TECH_KEYWORDS.map (fun k => (k, counts k))).filter
        (fun p => 0 < p.2)).map (fun p => ⟨p.1, (p.2 : ℤ)⟩))

/-- The facts record built by `ResumeParser.parse` (minus the PDF-reading
front end, which only produces `text`). -/
structure FactsRecord where
  file_path : String
  parsed_at : DateTime
  raw_text_length : ℕ
  contact : Contact
  experience : List Experience
  education : List EducationEntry
  skills : List String
  certifications : List String
  summary : Option String
  total_years_experience : ℚ
  skill_keywords : List SkillKeyword
  deriving DecidableEq

/-- `ResumeParser.parse` on already-extracted text: assembles the facts
record; `now` is the process clock (it reaches durations only through its
year/month and is stored whole as `parsed_at`). -/
def buildFacts (now : DateTime) (path text : String) (rx : RegexOracle) :
    FactsRecord :=
  let entries := extractExperience now.toDate rx.experienceSection
      rx.experienceMatches
  { file_path := path
    parsed_at := now
    raw_text_length := text.length
    contact := extractContact text rx
    experience := entries
    education := extractEducation rx.educationSection rx.educationMatches
    skills := extractSkills rx.skillsSection
    certifications := extractCertifications rx.certificationsSection
    summary := extractSummary rx.summarySection
    total_years_experience := calcTotalExperience entries
    skill_keywords := extractSkillKeywords rx.keywordCounts }

end ResumeParser

namespace Validator

/-- One experience entry of a scraped LinkedIn profile (only the `title` key
is read by the validator). -/
structure LIExperience where
  title : Option String
  deriving DecidableEq

/-- The LinkedIn profile mapping as read by
`Validator._validate_resume_vs_linkedin`. -/
structure LinkedinData where
  status : Option String
  experience : List LIExperience
  deriving DecidableEq

/-- Collect the truthy job titles (`if exp.get("title")`), lowercased; the
source then puts them in a `set`, modelled by `List.dedup` downstream. -/
def truthyTitles (l : List (Option String)) : List String :=
  l.filterMap (fun t =>
    match t with
    | some s => if s = "" then none else some (pyLower s)
    | none => none)

/-- `Validator._validate_resume_vs_linkedin` (validator.py lines 267–310):
skip on a failed scrape; otherwise flag when both title sets are non-empty,
have more than two elements each, and do not intersect. -/
def validateResumeVsLinkedin (resumeExperience : List ResumeParser.Experience)
    (ld : LinkedinData) : List Flag :=
  if ld.status = some "scraping_failed" then []
  else
    let resumeTitles :=
      (truthyTitles (resumeExperience.map (fun e => e.title))).dedup
    let linkedinTitles :=
      (truthyTitles (ld.experience.map (fun e => e.title))).dedup
    if resumeTitles ≠ [] ∧ linkedinTitles ≠ [] then
      (if (resumeTitles.filter (fun t => linkedinTitles.contains t)) = [] ∧
          2 < resumeTitles.length ∧ 2 < linkedinTitles.length then
        [{ type := "TITLE_MISMATCH"
           severity := some "MEDIUM"
           description := "Job titles on resume don\x27t match LinkedIn profile"
           evidence := [("resume_titles", .strs (resumeTitles.take 3)),
                        ("linkedin_titles", .strs (linkedinTitles.take 3))] }]
      else [])
    else []

end Validator

namespace Scorer

/-- `Scorer.WEIGHTS` (scorer.py lines 27–32). -/
def WEIGHTS : List (String × ℚ) :=
  [("technical_match", 0.40), ("experience_depth", 0.25),
   ("activity_score", 0.20), ("credibility", 0.15)]

/-- `self.WEIGHTS[k]` (all four keys are present). -/
def weight (k : String) : ℚ := (WEIGHTS.lookup k).getD 0

/-- The GitHub activity profile mapping as read by the scorer; every field is
accessed with a `.get(..., default)`. -/
structure GithubData where
  commits_12_months : Option ℤ
  public_repos : Option ℤ
  readme_complexity_score : Option ℚ
  contribution_streak : Option ℤ
  deriving DecidableEq

/-- The Gemini semantic-assessment mapping as read by the scorer. -/
structure SemanticAnalysis where
  technical_match_score : Option ℚ
  experience_relevance_score : Option ℚ
  key_matching_skills : List String
  missing_skills : List String
  deriving DecidableEq

/-- `Scorer._calculate_technical_match` (scorer.py lines 103–151). -/
def calcTechnicalMatch (resumeData : Option ResumeParser.FactsRecord)
    (semanticAnalysis : Option SemanticAnalysis) : ℚ :=
  let score : ℚ :=
    match semanticAnalysis, resumeData with
    | some sa, _ =>
        let s := sa.technical_match_score.getD 5
        let s := if 5 ≤ sa.key_matching_skills.length then s + 0.5
                 else if 3 ≤ sa.key_matching_skills.length then s + 0.25
                 else s
        if 4 ≤ sa.missing_skills.length then s - 1.0
        else if 2 ≤ sa.missing_skills.length then s - 0.5
        else s
    | none, some rd =>
        if 15 ≤ rd.skill_keywords.length then 8.0
        else if 10 ≤ rd.skill_keywords.length then 7.0
        else if 5 ≤ rd.skill_keywords.length then 6.0
        else 5.0
    | none, none => 5.0
  clamp10 score

/-- `Scorer._calculate_experience_depth` (scorer.py lines 153–196). -/
def calcExperienceDepth (resumeData : Option ResumeParser.FactsRecord)
    (semanticAnalysis : Option SemanticAnalysis) : ℚ :=
  let score : ℚ :=
    match resumeData with
    | some rd =>
        let years := rd.total_years_experience
        let base : ℚ :=
          if 10 ≤ years then 9.0
          else if 7 ≤ years then 8.0
          else if 5 ≤ years then 7.0
          else if 3 ≤ years then 6.0
          else if 1 ≤ years then 5.0
          else 4.0
        if 4 ≤ rd.experience.length then base + 0.5 else base
    | none => 5.0
  let score : ℚ :=
    match semanticAnalysis with
    | some sa => (score + sa.experience_relevance_score.getD 5) / 2
    | none => score
  clamp10 score

/-- `Scorer.ACTIVITY_BENCHMARKS` thresholds (used by name in the source). -/
def commits_excellent : ℤ := 500
def commits_good : ℤ := 200
def commits_fair : ℤ := 50
def repos_excellent : ℤ := 30
def repos_good : ℤ := 15
def repos_fair : ℤ := 5

/-- `Scorer._calculate_activity_score` (scorer.py lines 198–242). -/
def calcActivityScore (githubData : Option GithubData) : ℚ :=
  match githubData with
  | none => 5.0
  | some g =>
      let commits := g.commits_12_months.getD 0
      let commitsScore : ℚ :=
        if commits_excellent ≤ commits then 4.0
        else if commits_good ≤ commits then 3.0
        else if commits_fair ≤ commits then 2.0
        else 1.0
      let repos := g.public_repos.getD 0
      let reposScore : ℚ :=
        if repos_excellent ≤ repos then 3.0
        else if repos_good ≤ repos then 2.0
        else if repos_fair ≤ repos then 1.5
        else 1.0
      let readmeScore := g.readme_complexity_score.getD 5 / 5
      let streakScore := min 1.0 ((g.contribution_streak.getD 0 : ℚ) / 30)
      clamp10 (commitsScore + reposScore + readmeScore + streakScore)

/-- Per-flag deduction of `Scorer._calculate_credibility`
(`flag.get("severity", "LOW")`; HIGH → 3.0, MEDIUM → 1.5, else 0.5). -/
def scorerSevDeduction (f : Flag) : ℚ :=
  let s := f.severity.getD "LOW"
  if s = "HIGH" then 3 else if s = "MEDIUM" then 1.5 else 0.5

/-- `Scorer._calculate_credibility` (scorer.py lines 244–268): `if not
validation_flags` returns 10.0 for both `None` and the empty list; otherwise
10 minus the deductions, clamped. -/
def calcCredibility (validationFlags : Option (List Flag)) : ℚ :=
  match validationFlags with
  | none => 10.0
  | some fs =>
      if fs = [] then 10.0
      else clamp10 (10 - (fs.map scorerSevDeduction).sum)

/-- The interpretation record of `Scorer._interpret_score`. -/
structure Interpretation where
  rating : String
  recommendation : String
  description : String
  deriving DecidableEq

/-- `Scorer._interpret_score` (scorer.py lines 270–303). -/
def interpretScore (score : ℚ) : Interpretation :=
  if 8.5 ≤ score then
    ⟨"EXCELLENT", "STRONG_YES",
     "Outstanding candidate with strong technical alignment"⟩
  else if 7.0 ≤ score then
    ⟨"GOOD", "YES", "Well-qualified candidate worth interviewing"⟩
  else if 5.5 ≤ score then
    ⟨"FAIR", "MAYBE", "Candidate has potential but may lack some requirements"⟩
  else if 4.0 ≤ score then
    ⟨"BELOW_AVERAGE", "PROBABLY_NO",
     "Significant gaps in qualifications for this role"⟩
  else
    ⟨"POOR", "NO", "Candidate does not meet minimum requirements"⟩

/-- The result of `Scorer.calculate_score`: total, per-category breakdown
(each rounded to one decimal), weights and interpretation. -/
structure ScoreResult where
  total_score : ℚ
  technical_match : ℚ
  experience_depth : ℚ
  activity_score : ℚ
  credibility : ℚ
  weights : List (String × ℚ)
  interp : Interpretation
  deriving DecidableEq

/-- `Scorer.calculate_score` (scorer.py lines 48–101). -/
def calculateScore (githubData : Option GithubData)
    (resumeData : Option ResumeParser.FactsRecord)
    (semanticAnalysis : Option SemanticAnalysis)
    (validationFlags : Option (List Flag)) : ScoreResult :=
  let technicalScore := calcTechnicalMatch resumeData semanticAnalysis
  let experienceScore := calcExperienceDepth resumeData semanticAnalysis
  let activityScore := calcActivityScore githubData
  let credibilityScore := calcCredibility validationFlags
  let totalScore := round1
    (technicalScore * weight "technical_match" +
     experienceScore * weight "experience_depth" +
     activityScore * weight "activity_score" +
     credibilityScore * weight "credibility")
  { total_score := totalScore
    technical_match := round1 technicalScore
    experience_depth := round1 experienceScore
    activity_score := round1 activityScore
    credibility := round1 credibilityScore
    weights := WEIGHTS
    interp := interpretScore totalScore }

end Scorer

/-! ### Concrete inputs used by scenario theorems, witnesses and
counterexamples -/

/-- A facts record with every field empty. -/
def blankFacts : ResumeParser.FactsRecord :=
  { file_path := ""
    parsed_at := ⟨2024, 1, 1⟩
    raw_text_length := 0
    contact := ⟨none, none, none, none, none, none⟩
    experience := []
    education := []
    skills := []
    certifications := []
    summary := none
    total_years_experience := 0
    skill_keywords := [] }

/-- Scenario C input: skill-keyword table with exactly the two entries
python ↦ 10 and aws ↦ 5. -/
def factsTwoKeywords : ResumeParser.FactsRecord :=
  { blankFacts with skill_keywords := [⟨"python", 10⟩, ⟨"aws", 5⟩] }

/-- A facts record with exactly five skill keywords (the `≥ 5` boundary). -/
def factsFiveKeywords : ResumeParser.FactsRecord :=
  { blankFacts with skill_keywords :=
      [⟨"python", 10⟩, ⟨"aws", 5⟩, ⟨"docker", 3⟩, ⟨"sql", 2⟩, ⟨"react", 1⟩] }

/-- The flag emitted by the technology-age check for
"8 years of experience with FastAPI" at current year 2024. -/
def fastapiFlag : Flag :=
  { type := "EXPERIENCE_MISMATCH"
    severity := some "HIGH"
    description :=
      "Claims 8 years experience with fastapi, but it was released in 2018 (6 years ago)"
    evidence := [("claimed_years", .i 8), ("max_possible_years", .i 6),
                 ("technology", .s "fastapi"), ("release_year", .i 2018)] }

/-- A regex oracle whose every result is empty. -/
def emptyOracle : ResumeParser.RegexOracle :=
  { emailMatch := none, phoneMatch := none, linkedinHandle := none,
    githubHandle := none, experienceSection := none, educationSection := none,
    skillsSection := none, certificationsSection := none,
    summarySection := none, experienceMatches := [], educationMatches := [],
    keywordCounts := fun _ => 0 }

/-- Regex results for the text `"Experience\n2020 - present"`: the experience
section is `"2020 - present"`, on which only the third date pattern
(`YYYY [-–] YYYY|present|...`) matches, at positions 0–14 with groups
`"2020"` and `"present"`. -/
def presentOracle : ResumeParser.RegexOracle :=
  { emptyOracle with
      experienceSection := some "2020 - present"
      experienceMatches := [[], [], [⟨0, 14, "2020", "present"⟩]] }

/-- The résumé text behind `presentOracle`. -/
def presentText : String := "Experience\n2020 - present"

/-- Clock for concrete experience examples. -/
def nowW : Date := ⟨2024, 6⟩

/-- The single experience entry extracted from `presentOracle` at `nowW`:
"2020" parses to January 2020, "present" resolves to June 2024, so the
duration is 53 months. -/
def entryW : ResumeParser.Experience :=
  ⟨"2020 - present", "2020", "present", 53, none, none⟩

/-- Experience section for the window counterexample: two date matches whose
starts are 691 characters apart (more than `match.end() + 500` for the first
match). Pattern 3 (`\d\x7b4\x7d [-–] ...`) is the first of the three date
patterns matching this section, at positions 0–11 and 691–702. -/
def sectionC6 : String :=
  "2019 - 2020" ++ String.mk (List.replicate 680 'a') ++ "2021 - 2022"

/-- The two `finditer` matches of the third date pattern on `sectionC6`. -/
def matchesC6 : List ResumeParser.RegexMatch :=
  [⟨0, 11, "2019", "2020"⟩, ⟨691, 702, "2021", "2022"⟩]

/-- Number of flags whose (defaulted) severity equals `s`. -/
def countSeverity (s : String) (flags : List Flag) : ℕ :=
  (flags.filter (fun f => f.severity.getD "LOW" == s)).length

/-- Number of flags whose (defaulted) severity is neither HIGH nor MEDIUM. -/
def countOther (flags : List Flag) : ℕ :=
  (flags.filter (fun f =>
    f.severity.getD "LOW" != "HIGH" && f.severity.getD "LOW" != "MEDIUM")).length

/-! ### Helper lemmas -/

theorem clamp10_nonneg (x : ℚ) : 0 ≤ clamp10 x := le_max_left 0 _

theorem clamp10_le_ten (x : ℚ) : clamp10 x ≤ 10 :=
  max_le (by norm_num) (min_le_left _ _)

theorem round1_nonneg (x : ℚ) (h : 0 ≤ x) : 0 ≤ round1 x := by
  have h10 : (0 : ℚ) ≤ 10 * x := by linarith
  have hfl : (0 : ℤ) ≤ ⌊(10 : ℚ) * x⌋ := Int.floor_nonneg.mpr h10
  unfold round1 roundHalfEven
  split_ifs with h1 h2
  · positivity
  · have : (0 : ℤ) ≤ ⌊(10 : ℚ) * x⌋ + 1 := by omega
    positivity
  · have : (0 : ℤ) ≤ round ((10 : ℚ) * x) := by
      rw [round_eq]
      exact Int.floor_nonneg.mpr (by linarith)
    positivity

theorem sevDeduction_nonneg (f : Flag) : 0 ≤ Validator.sevDeduction f := by
  unfold Validator.sevDeduction
  simp only []
  split_ifs <;> norm_num

theorem sevDeduction_sum_nonneg (flags : List Flag) :
    0 ≤ (flags.map Validator.sevDeduction).sum := by
  apply List.sum_nonneg
  intro x hx
  obtain ⟨f, _, rfl⟩ := List.mem_map.mp hx
  exact sevDeduction_nonneg f

/-- The two severity-deduction functions of scorer.py and validator.py are
definitionally the same function. -/
theorem scorerSevDeduction_eq : Scorer.scorerSevDeduction = Validator.sevDeduction :=
  rfl

/-- The accumulated deductions equal 3 per HIGH, 1.5 per MEDIUM and 0.5 per
remaining flag. -/
theorem sevDeduction_sum_eq (flags : List Flag) :
    (flags.map Validator.sevDeduction).sum =
      3 * (countSeverity "HIGH" flags : ℚ) +
      1.5 * (countSeverity "MEDIUM" flags : ℚ) +
      0.5 * (countOther flags : ℚ) := by
  induction flags with
  | nil => simp [countSeverity, countOther]
  | cons f fs ih =>
      by_cases h1 : f.severity.getD "LOW" = "HIGH"
      · simp only [List.map_cons, List.sum_cons, ih, countSeverity, countOther,
          List.filter_cons, h1]
        norm_num [Validator.sevDeduction, h1]
        push_cast
        ring
      · by_cases h2 : f.severity.getD "LOW" = "MEDIUM"
        · simp only [List.map_cons, List.sum_cons, ih, countSeverity,
            countOther, List.filter_cons, h2]
          norm_num [Validator.sevDeduction, h1, h2]
          push_cast
          ring
        · simp only [List.map_cons, List.sum_cons, ih, countSeverity,
            countOther, List.filter_cons]
          norm_num [Validator.sevDeduction, h1, h2]
          ring

/-! ### C1 -/

/-- C1: for every list of flags, `Validator.get_credibility_score` equals
`clamp(10 − 3·#HIGH − 1.5·#MEDIUM − 0.5·#other, 0, 10)` rounded to one
decimal, and is 10.0 on the empty list. -/
theorem credibility_score_formula (flags : List Flag) :
    Validator.getCredibilityScore flags =
      round1 (clamp10 (10 - 3 * (countSeverity "HIGH" flags : ℚ)
        - 1.5 * (countSeverity "MEDIUM" flags : ℚ)
        - 0.5 * (countOther flags : ℚ))) ∧
    Validator.getCredibilityScore [] = 10 := by
  constructor
  · unfold Validator.getCredibilityScore
    have hsum := sevDeduction_sum_eq flags
    have hnn := sevDeduction_sum_nonneg flags
    split_ifs with h
    · subst h
      simp only [List.map_nil, List.sum_nil] at hsum
      rw [clamp10, show (10 : ℚ) - 3 * (countSeverity "HIGH" [] : ℚ)
            - 1.5 * (countSeverity "MEDIUM" [] : ℚ)
            - 0.5 * (countOther [] : ℚ) = 10 by linarith,
          min_eq_right (by norm_num : (10 : ℚ) ≤ 10),
          max_eq_right (by norm_num : (0 : ℚ) ≤ 10)]
      norm_num [round1, roundHalfEven, Int.fract]
    · rw [clamp10,
          min_eq_right (by linarith :
            (10 : ℚ) - 3 * (countSeverity "HIGH" flags : ℚ)
              - 1.5 * (countSeverity "MEDIUM" flags : ℚ)
              - 0.5 * (countOther flags : ℚ) ≤ 10)]
      exact congrArg round1 (congrArg (max 0) (by linarith))
  · norm_num [Validator.getCredibilityScore]

/-! ### C2 -/

theorem weight_technical : Scorer.weight "technical_match" = 0.40 := rfl

theorem weight_experience : Scorer.weight "experience_depth" = 0.25 := rfl

theorem weight_activity : Scorer.weight "activity_score" = 0.20 := rfl

theorem weight_credibility : Scorer.weight "credibility" = 0.15 := rfl

theorem calcTechnicalMatch_bounds (rd : Option ResumeParser.FactsRecord)
    (sa : Option Scorer.SemanticAnalysis) :
    0 ≤ Scorer.calcTechnicalMatch rd sa ∧ Scorer.calcTechnicalMatch rd sa ≤ 10 := by
  unfold Scorer.calcTechnicalMatch
  exact ⟨clamp10_nonneg _, clamp10_le_ten _⟩

theorem calcExperienceDepth_bounds (rd : Option ResumeParser.FactsRecord)
    (sa : Option Scorer.SemanticAnalysis) :
    0 ≤ Scorer.calcExperienceDepth rd sa ∧ Scorer.calcExperienceDepth rd sa ≤ 10 := by
  unfold Scorer.calcExperienceDepth
  exact ⟨clamp10_nonneg _, clamp10_le_ten _⟩

theorem calcActivityScore_bounds (gh : Option Scorer.GithubData) :
    0 ≤ Scorer.calcActivityScore gh ∧ Scorer.calcActivityScore gh ≤ 10 := by
  unfold Scorer.calcActivityScore
  cases gh with
  | none => norm_num
  | some g => exact ⟨clamp10_nonneg _, clamp10_le_ten _⟩

theorem calcCredibility_bounds (vf : Option (List Flag)) :
    0 ≤ Scorer.calcCredibility vf ∧ Scorer.calcCredibility vf ≤ 10 := by
  cases vf with
  | none => norm_num [Scorer.calcCredibility]
  | some fs =>
      by_cases h : fs = []
      · norm_num [Scorer.calcCredibility, h]
      · simp only [Scorer.calcCredibility, h, if_false]
        exact ⟨clamp10_nonneg _, clamp10_le_ten _⟩

/-- C2: for every (possibly absent) combination of inputs,
`Scorer.calculate_score` returns
`total_score = round(0.40·technical + 0.25·experience + 0.20·activity +
0.15·credibility, 1)`, the four weights sum to 1.00, and each of the four
sub-scores lies in [0, 10]. -/
theorem total_score_weighted_sum (gh : Option Scorer.GithubData)
    (rd : Option ResumeParser.FactsRecord) (sa : Option Scorer.SemanticAnalysis)
    (vf : Option (List Flag)) :
    (Scorer.calculateScore gh rd sa vf).total_score =
      round1 (0.40 * Scorer.calcTechnicalMatch rd sa +
              0.25 * Scorer.calcExperienceDepth rd sa +
              0.20 * Scorer.calcActivityScore gh +
              0.15 * Scorer.calcCredibility vf) ∧
    (Scorer.WEIGHTS.map Prod.snd).sum = 1 ∧
    (0 ≤ Scorer.calcTechnicalMatch rd sa ∧ Scorer.calcTechnicalMatch rd sa ≤ 10) ∧
    (0 ≤ Scorer.calcExperienceDepth rd sa ∧ Scorer.calcExperienceDepth rd sa ≤ 10) ∧
    (0 ≤ Scorer.calcActivityScore gh ∧ Scorer.calcActivityScore gh ≤ 10) ∧
    (0 ≤ Scorer.calcCredibility vf ∧ Scorer.calcCredibility vf ≤ 10) := by
  refine ⟨?_, ?_, calcTechnicalMatch_bounds rd sa, calcExperienceDepth_bounds rd sa,
    calcActivityScore_bounds gh, calcCredibility_bounds vf⟩
  · show round1 _ = round1 _
    rw [weight_technical, weight_experience, weight_activity, weight_credibility]
    exact congrArg round1 (by ring)
  · simp [Scorer.WEIGHTS]
    norm_num

/-! ### C9 -/

/-- C9: the credibility sub-score of the Composite Scorer (rounded to one
decimal in the breakdown) equals the Validator's credibility score on the same
flag list — the two implementations compute the same function. -/
theorem scorer_validator_credibility_agree (gh : Option Scorer.GithubData)
    (rd : Option ResumeParser.FactsRecord) (sa : Option Scorer.SemanticAnalysis)
    (flags : List Flag) :
    (Scorer.calculateScore gh rd sa (some flags)).credibility =
      Validator.getCredibilityScore flags := by
  show round1 (Scorer.calcCredibility (some flags)) =
    Validator.getCredibilityScore flags
  by_cases h : flags = []
  · simp only [Scorer.calcCredibility, Validator.getCredibilityScore, h,
      if_true]
    norm_num [round1, roundHalfEven, Int.fract]
  · simp only [Scorer.calcCredibility, Validator.getCredibilityScore, h,
      if_false, scorerSevDeduction_eq]
    have hnn := sevDeduction_sum_nonneg flags
    rw [clamp10, min_eq_right (by linarith :
      (10 : ℚ) - (flags.map Validator.sevDeduction).sum ≤ 10)]

/-! ### C7 -/

/-- C7 (counterexample): with the two-entry skill-keyword table
python ↦ 10, aws ↦ 5 and no semantic assessment, the technical-match
sub-score is NOT 6.0 (it is 5.0: two keywords fall below the `≥ 5`
threshold). -/
theorem technical_match_two_keywords_counterexample :
    Scorer.calcTechnicalMatch (some factsTwoKeywords) none ≠ 6 := by
  have h : Scorer.calcTechnicalMatch (some factsTwoKeywords) none = 5 := by
    simp only [Scorer.calcTechnicalMatch, factsTwoKeywords, blankFacts]
    norm_num [clamp10]
  rw [h]
  norm_num

/-- C7 (amended): with no semantic assessment, the technical-match sub-score
is the step function of the skill-keyword count (`≥15 → 8`, `≥10 → 7`,
`≥5 → 6`, else 5); on the two-entry table python ↦ 10, aws ↦ 5 it is
therefore 5.0, and a five-keyword table maps to 6.0. -/
theorem technical_match_step_rule :
    (∀ rd : ResumeParser.FactsRecord,
        Scorer.calcTechnicalMatch (some rd) none =
          (if 15 ≤ rd.skill_keywords.length then 8
           else if 10 ≤ rd.skill_keywords.length then 7
           else if 5 ≤ rd.skill_keywords.length then 6
           else 5)) ∧
    Scorer.calcTechnicalMatch (some factsTwoKeywords) none = 5 ∧
    Scorer.calcTechnicalMatch (some factsFiveKeywords) none = 6 := by
  refine ⟨fun rd => ?_, ?_, ?_⟩
  · simp only [Scorer.calcTechnicalMatch]
    split_ifs <;> norm_num [clamp10]
  · simp only [Scorer.calcTechnicalMatch, factsTwoKeywords, blankFacts]
    norm_num [clamp10]
  · simp only [Scorer.calcTechnicalMatch, factsFiveKeywords, blankFacts]
    norm_num [clamp10]

/-! ### Parser structure lemmas -/

/-- Every entry built by the experience loop has `title = None`,
`company = None`, and its duration computed by `_calculate_duration` from its
own stored date strings. -/
theorem buildEntries_mem (now : Date) (sec : String) :
    ∀ (ms : List ResumeParser.RegexMatch) (e : ResumeParser.Experience),
      e ∈ ResumeParser.buildEntries now sec ms →
        e.title = none ∧ e.company = none ∧
        e.duration_months =
          ResumeParser.calculateDuration now e.startDate e.endDate := by
  intro ms
  induction ms with
  | nil => intro e he; simp [ResumeParser.buildEntries] at he
  | cons m rest ih =>
      cases rest with
      | nil =>
          intro e he
          simp only [ResumeParser.buildEntries, List.mem_singleton] at he
          subst he
          exact ⟨rfl, rfl, rfl⟩
      | cons m2 rest2 =>
          intro e he
          rw [ResumeParser.buildEntries, List.mem_cons] at he
          rcases he with he | he
          · subst he
            exact ⟨rfl, rfl, rfl⟩
          · exact ih e he

/-- Membership version for the capped extractor output. -/
theorem extractExperience_mem (now : Date) (sect : Option String)
    (mbp : List (List ResumeParser.RegexMatch)) (e : ResumeParser.Experience)
    (he : e ∈ ResumeParser.extractExperience now sect mbp) :
    e.title = none ∧ e.company = none ∧
    e.duration_months =
      ResumeParser.calculateDuration now e.startDate e.endDate := by
  unfold ResumeParser.extractExperience at he
  cases sect with
  | none => simp at he
  | some sec =>
      by_cases h : sec = ""
      · simp [h] at he
      · simp only [h, if_false] at he
        exact buildEntries_mem now sec _ e (List.take_subset 10 _ he)

/-- A computed duration is never negative. -/
theorem calculateDuration_nonneg (now : Date) (s e : String) :
    0 ≤ ResumeParser.calculateDuration now s e := le_max_left 0 _

/-! ### C3 -/

/-- C3: every facts record produced by the extractor has
`total_years_experience ≥ 0` and equal to `round(Σ duration_months / 12, 1)`,
and every entry's `duration_months` is
`(end.year − start.year)·12 + (end.month − start.month)` floored at 0, where
the end date is the resolved ("present" ↦ now) parse of the stored end
string. -/
theorem total_experience_nonneg_and_formula (now : Date) (sect : Option String)
    (mbp : List (List ResumeParser.RegexMatch)) (e : ResumeParser.Experience)
    (he : e ∈ ResumeParser.extractExperience now sect mbp) :
    0 ≤ ResumeParser.calcTotalExperience
        (ResumeParser.extractExperience now sect mbp) ∧
    ResumeParser.calcTotalExperience (ResumeParser.extractExperience now sect mbp) =
      round1 ((((ResumeParser.extractExperience now sect mbp).map
        (fun x => x.duration_months)).sum : ℚ) / 12) ∧
    e.duration_months =
      max 0 (((ResumeParser.resolveEnd now e.endDate).year -
              (ResumeParser.parseDate now e.startDate).year) * 12 +
             ((ResumeParser.resolveEnd now e.endDate).month -
              (ResumeParser.parseDate now e.startDate).month)) := by
  refine ⟨?_, rfl, ?_⟩
  · apply round1_nonneg
    apply div_nonneg _ (by norm_num)
    apply List.sum_nonneg
    intro x hx
    obtain ⟨f, hf, rfl⟩ := List.mem_map.mp hx
    have h1 : (0 : ℤ) ≤ f.duration_months := by
      rw [(extractExperience_mem now sect mbp f hf).2.2]
      exact calculateDuration_nonneg now _ _
    exact_mod_cast h1
  · rw [(extractExperience_mem now sect mbp e he).2.2]
    rfl

set_option maxRecDepth 2000 in
/-- Witness for C3 at the concrete extraction of "2020 - present" with
current date June 2024 (duration 53 months, total 4.4 years). -/
theorem total_experience_nonneg_and_formula_witness :
    0 ≤ ResumeParser.calcTotalExperience
        (ResumeParser.extractExperience nowW (some "2020 - present")
          [[], [], [⟨0, 14, "2020", "present"⟩]]) ∧
    ResumeParser.calcTotalExperience
        (ResumeParser.extractExperience nowW (some "2020 - present")
          [[], [], [⟨0, 14, "2020", "present"⟩]]) =
      round1 ((((ResumeParser.extractExperience nowW (some "2020 - present")
        [[], [], [⟨0, 14, "2020", "present"⟩]]).map
        (fun x => x.duration_months)).sum : ℚ) / 12) ∧
    entryW.duration_months =
      max 0 (((ResumeParser.resolveEnd nowW entryW.endDate).year -
              (ResumeParser.parseDate nowW entryW.startDate).year) * 12 +
             ((ResumeParser.resolveEnd nowW entryW.endDate).month -
              (ResumeParser.parseDate nowW entryW.startDate).month)) :=
  total_experience_nonneg_and_formula nowW (some "2020 - present")
    [[], [], [⟨0, 14, "2020", "present"⟩]] entryW (by decide)

/-! ### C10 -/

/-- C10: every experience entry produced by the extractor has
`title = None` and `company = None`, so the résumé-vs-LinkedIn title-overlap
check never emits a TITLE_MISMATCH flag on extractor output (its résumé title
set is always empty and the check returns no flags at all). -/
theorem parser_titles_none_no_mismatch (now : Date) (sect : Option String)
    (mbp : List (List ResumeParser.RegexMatch)) (ld : Validator.LinkedinData) :
    (∀ e ∈ ResumeParser.extractExperience now sect mbp,
        e.title = none ∧ e.company = none) ∧
    Validator.validateResumeVsLinkedin
      (ResumeParser.extractExperience now sect mbp) ld = [] := by
  have htitles : ∀ e ∈ ResumeParser.extractExperience now sect mbp,
      e.title = none ∧ e.company = none := by
    intro e he
    have h := extractExperience_mem now sect mbp e he
    exact ⟨h.1, h.2.1⟩
  refine ⟨htitles, ?_⟩
  have hrt : Validator.truthyTitles
      ((ResumeParser.extractExperience now sect mbp).map (fun e => e.title)) = [] := by
    unfold Validator.truthyTitles
    rw [List.filterMap_eq_nil_iff]
    intro a ha
    obtain ⟨e, he, rfl⟩ := List.mem_map.mp ha
    rw [(htitles e he).1]
  simp [Validator.validateResumeVsLinkedin, hrt]

/-- Witness for C10 at the concrete extraction of "2020 - present" and an
empty LinkedIn profile. -/
theorem parser_titles_none_no_mismatch_witness :
    (entryW.title = none ∧ entryW.company = none) ∧
    Validator.validateResumeVsLinkedin
      (ResumeParser.extractExperience nowW (some "2020 - present")
        [[], [], [⟨0, 14, "2020", "present"⟩]]) ⟨none, []⟩ = [] :=
  ⟨(parser_titles_none_no_mismatch nowW (some "2020 - present")
      [[], [], [⟨0, 14, "2020", "present"⟩]] ⟨none, []⟩).1 entryW (by decide),
   (parser_titles_none_no_mismatch nowW (some "2020 - present")
      [[], [], [⟨0, 14, "2020", "present"⟩]] ⟨none, []⟩).2⟩

/-! ### C6 -/

/-- Position `i` of the experience loop's output, when a match follows match
`i`: the entry is built with the window ending at the next match's start. -/
theorem buildEntries_get? (now : Date) (sec : String) :
    ∀ (ms : List ResumeParser.RegexMatch) (i : ℕ)
      (mi mj : ResumeParser.RegexMatch),
      ms[i]? = some mi → ms[i + 1]? = some mj →
      (ResumeParser.buildEntries now sec ms)[i]? =
        some (ResumeParser.mkEntry now sec mi mj.start) := by
  intro ms
  induction ms with
  | nil => intro i mi mj h1 h2; simp at h1
  | cons m rest ih =>
      intro i mi mj h1 h2
      cases rest with
      | nil =>
          exfalso
          cases i with
          | zero => simp at h2
          | succ j => simp at h1
      | cons m2 rest2 =>
          cases i with
          | zero =>
              simp only [List.getElem?_cons_zero, Option.some.injEq] at h1
              rw [show (0 : ℕ) + 1 = 0 + 1 from rfl] at h2
              rw [List.getElem?_cons_succ, List.getElem?_cons_zero] at h2
              rw [Option.some.injEq] at h2
              subst h1
              subst h2
              rw [ResumeParser.buildEntries]
              rw [List.getElem?_cons_zero]
          | succ j =>
              rw [List.getElem?_cons_succ] at h1
              rw [show j + 1 + 1 = (j + 1) + 1 from rfl,
                  List.getElem?_cons_succ] at h2
              rw [ResumeParser.buildEntries]
              rw [List.getElem?_cons_succ]
              exact ih j mi mj h1 h2

/-- C6 (amended): for every matched date pair except the last, the working
window runs from 200 characters before the match start (floored at 0) to the
start of the next matched date pair — unconditionally, not to the closer of
that and 500 characters past the match end — and the stored raw excerpt is
the first 300 characters of that window. -/
theorem excerpt_window_rule (now : Date) (sec : String)
    (ms : List ResumeParser.RegexMatch) (i : ℕ)
    (mi mj : ResumeParser.RegexMatch)
    (h1 : ms[i]? = some mi) (h2 : ms[i + 1]? = some mj) :
    (ResumeParser.buildEntries now sec ms)[i]? =
      some (ResumeParser.mkEntry now sec mi mj.start) ∧
    (ResumeParser.mkEntry now sec mi mj.start).raw_text =
      pyTake (ResumeParser.pySlice sec (mi.start - 200) mj.start)
        300 :=
  ⟨buildEntries_get? now sec ms i mi mj h1 h2, rfl⟩

/-- Witness for C6 on the two matches of `sectionC6`. -/
theorem excerpt_window_rule_witness :
    (ResumeParser.buildEntries nowW sectionC6 matchesC6)[0]? =
      some (ResumeParser.mkEntry nowW sectionC6 ⟨0, 11, "2019", "2020"⟩ 691) ∧
    (ResumeParser.mkEntry nowW sectionC6 ⟨0, 11, "2019", "2020"⟩ 691).raw_text =
      pyTake (ResumeParser.pySlice sectionC6 (0 - 200) 691) 300 :=
  excerpt_window_rule nowW sectionC6 matchesC6 0 ⟨0, 11, "2019", "2020"⟩
    ⟨691, 702, "2021", "2022"⟩ rfl rfl

set_option maxRecDepth 20000 in
/-- C6 (counterexample): on `sectionC6` the stored raw excerpt of the first
(non-last) entry is NOT the span ending at the closer of `match.end() + 500`
and the next match's start — the code ends the window at the next match's
start (691) even though `match.end() + 500 = 511` is closer, and then keeps
only the first 300 characters, while the claimed span has 511 characters. -/
theorem excerpt_window_counterexample :
    ((ResumeParser.buildEntries nowW sectionC6 matchesC6)[0]?).map
        (fun e => e.raw_text) ≠
      some (ResumeParser.pySlice sectionC6 (0 - 200) (min (11 + 500) 691)) ∧
    ((ResumeParser.buildEntries nowW sectionC6 matchesC6)[0]?).map
        (fun e => e.raw_text.length) = some 300 ∧
    (ResumeParser.pySlice sectionC6 (0 - 200) (min (11 + 500) 691)).length =
      511 := by
  refine ⟨?_, ?_, ?_⟩ <;> decide

/-! ### C4 -/

/-- `List.find?` returns exactly the first element satisfying the predicate:
the element at some index `i` that satisfies it while every earlier index
fails it. -/
theorem find?_eq_some_iff_first {α : Type} (p : α → Bool) :
    ∀ (l : List α) (a : α),
      l.find? p = some a ↔
        ∃ i : ℕ, l[i]? = some a ∧ p a = true ∧
          ∀ j, j < i → ∀ b, l[j]? = some b → p b = false := by
  intro l
  induction l with
  | nil => intro a; simp
  | cons x xs ih =>
      intro a
      cases hp : p x with
      | true =>
          rw [List.find?_cons_of_pos _ hp]
          constructor
          · intro h
            rw [Option.some.injEq] at h
            subst h
            exact ⟨0, by rw [List.getElem?_cons_zero], hp,
              fun j hj => absurd hj (Nat.not_lt_zero j)⟩
          · rintro ⟨i, h1, h2, h3⟩
            cases i with
            | zero =>
                rw [List.getElem?_cons_zero, Option.some.injEq] at h1
                rw [h1]
            | succ k =>
                exfalso
                have hx := h3 0 (Nat.succ_pos k) x (by rw [List.getElem?_cons_zero])
                rw [hp] at hx
                exact Bool.noConfusion hx
      | false =>
          rw [List.find?_cons_of_neg _ (by rw [hp]; exact Bool.false_ne_true)]
          rw [ih a]
          constructor
          · rintro ⟨i, h1, h2, h3⟩
            refine ⟨i + 1, by rw [List.getElem?_cons_succ]; exact h1, h2, ?_⟩
            intro j hj b hb
            cases j with
            | zero =>
                rw [List.getElem?_cons_zero, Option.some.injEq] at hb
                subst hb
                exact hp
            | succ k =>
                rw [List.getElem?_cons_succ] at hb
                exact h3 k (by omega) b hb
          · rintro ⟨i, h1, h2, h3⟩
            cases i with
            | zero =>
                exfalso
                rw [List.getElem?_cons_zero, Option.some.injEq] at h1
                subst h1
                rw [h2] at hp
                exact Bool.noConfusion hp
            | succ k =>
                refine ⟨k, by rw [List.getElem?_cons_succ] at h1; exact h1, h2, ?_⟩
                intro j hj b hb
                exact h3 (j + 1) (by omega) b
                  (by rw [List.getElem?_cons_succ]; exact hb)

/-- C4 (amended): a "N years … TECH" match emits a HIGH flag iff the first
`TECH_RELEASE_DATES` entry whose name is a substring of the matched phrase
exists and `claimed_years > (current_year − release_year) + 1`; every emitted
flag is HIGH and its evidence mapping has exactly the keys `claimed_years`,
`max_possible_years`, `technology` and `release_year` (the key holding the
introduction year is spelled `release_year`); and on
"8 years … fastapi" at current year 2024 the check emits the HIGH flag with
`max_possible_years = 6`. -/
theorem tech_age_flag_rule :
    (∀ (cy y : ℤ) (t : String),
        Validator.techCheck cy y t ≠ [] ↔
          ∃ (i : ℕ) (p : String × ℤ),
            (Validator.TECH_RELEASE_DATES)[i]? = some p ∧
            substrOf p.1 t = true ∧
            (∀ j, j < i → ∀ (q : String × ℤ),
              (Validator.TECH_RELEASE_DATES)[j]? = some q →
              substrOf q.1 t = false) ∧
            cy - p.2 + 1 < y) ∧
    (∀ (cy y : ℤ) (t : String) (f : Flag), f ∈ Validator.techCheck cy y t →
        f.severity = some "HIGH" ∧
        f.evidence.map Prod.fst =
          ["claimed_years", "max_possible_years", "technology",
           "release_year"]) ∧
    Validator.techCheck 2024 8 "fastapi" = [fastapiFlag] := by
  refine ⟨?_, ?_, by decide⟩
  · intro cy y t
    unfold Validator.techCheck
    cases hfind : Validator.TECH_RELEASE_DATES.find?
        (fun p => substrOf p.1 t) with
    | none =>
        simp only [ne_eq, not_true_eq_false, false_iff, not_exists]
        intro i p hp
        obtain ⟨h1, h2, h3, h4⟩ := hp
        have hmem := List.getElem?_mem h1
        have hnot := List.find?_eq_none.mp hfind p hmem
        rw [h2] at hnot
        exact hnot rfl
    | some p0 =>
        obtain ⟨i0, g1, g2, g3⟩ :=
          (find?_eq_some_iff_first _ Validator.TECH_RELEASE_DATES p0).mp hfind
        simp only []
        split_ifs with hcond
        · constructor
          · intro _
            exact ⟨i0, p0, g1, g2, g3, hcond⟩
          · intro _
            simp
        · constructor
          · intro h
            exact absurd rfl h
          · rintro ⟨i, p, h1, h2, h3, h4⟩
            exfalso
            rcases lt_trichotomy i i0 with hlt | heq | hgt
            · have hfalse := g3 i hlt p h1
              rw [h2] at hfalse
              exact Bool.noConfusion hfalse
            · subst heq
              rw [g1, Option.some.injEq] at h1
              subst h1
              exact hcond h4
            · have hfalse := h3 i0 hgt p0 g1
              rw [g2] at hfalse
              exact Bool.noConfusion hfalse
  · intro cy y t f hf
    unfold Validator.techCheck at hf
    cases hfind : Validator.TECH_RELEASE_DATES.find?
        (fun p => substrOf p.1 t) with
    | none => rw [hfind] at hf; simp at hf
    | some p0 =>
        rw [hfind] at hf
        by_cases hcond : cy - p0.2 + 1 < y
        · simp only [hcond, if_true, List.mem_singleton] at hf
          subst hf
          exact ⟨rfl, rfl⟩
        · simp [hcond] at hf

/-- Witness for C4: the flag emitted for "8 years … fastapi" in 2024 is HIGH
and carries exactly the four evidence keys. -/
theorem tech_age_flag_rule_witness :
    fastapiFlag.severity = some "HIGH" ∧
    fastapiFlag.evidence.map Prod.fst =
      ["claimed_years", "max_possible_years", "technology", "release_year"] :=
  tech_age_flag_rule.2.1 2024 8 "fastapi" fastapiFlag (by decide)

/-- C4 (counterexample): the emitted flag's evidence keys are
claimed_years, max_possible_years, technology and release_year — the claimed
key `introduction_year` is not among them. -/
theorem tech_age_evidence_key_counterexample :
    (Validator.techCheck 2024 8 "fastapi").map
        (fun f => f.evidence.map Prod.fst) =
      [["claimed_years", "max_possible_years", "technology",
        "release_year"]] ∧
    ¬ ("introduction_year" ∈
        ["claimed_years", "max_possible_years", "technology",
         "release_year"]) := by
  refine ⟨?_, ?_⟩ <;> decide

/-! ### C5 -/

/-- C5 (amended): the extracted name is the first of the first five lines of
the stripped text whose stripped form is non-empty, contains NONE OF THE
CHARACTERS `@ | w . h t p c o m` (the source regex `[@|www\.|http|\.com]` is
a character class, not an alternation of substrings), and has at most four
whitespace-separated tokens; `None` if no such line exists. -/
theorem name_line_rule (text : String) :
    ResumeParser.extractName text =
      ((((splitBy (fun c => c = '\n') (pyStrip text)).take 5).map pyStrip).filter
        (fun l => decide (l ≠ "" ∧
          ResumeParser.hasBannedNameChar l = false ∧
          ResumeParser.pyTokenCount l ≤ 4))).head? := by
  unfold ResumeParser.extractName
  generalize ((splitBy (fun c => c = '\n') (pyStrip text)).take 5) = L
  induction L with
  | nil => rfl
  | cons x xs ih =>
      rw [List.findSome?_cons, List.map_cons, List.filter_cons]
      by_cases h1 : pyStrip x = ""
      · simp [h1, ih]
      · by_cases h2 : ResumeParser.hasBannedNameChar (pyStrip x) = false
        · by_cases h3 : ResumeParser.pyTokenCount (pyStrip x) ≤ 4
          · simp [h1, h2, h3]
          · simp [h1, h2, h3, ih]
        · simp [h1, h2, ih]

/-- C5 (counterexample): on the text "John Smith\nAcme Corp" the extracted
name is `None`, although its first line "John Smith" is non-empty, contains
none of the SUBSTRINGS "@", "www.", "http", ".com", and has two tokens — so
the claim's substring reading predicts the name "John Smith". -/
theorem name_line_counterexample :
    ResumeParser.extractName "John Smith\nAcme Corp" = none ∧
    (splitBy (fun c => c = '\n') "John Smith\nAcme Corp").head? =
      some "John Smith" ∧
    substrOf "@" "John Smith" = false ∧
    substrOf "www." "John Smith" = false ∧
    substrOf "http" "John Smith" = false ∧
    substrOf ".com" "John Smith" = false ∧
    ResumeParser.pyTokenCount "John Smith" ≤ 4 ∧
    "John Smith" ≠ "" := by
  refine ⟨?_, ?_, ?_, ?_, ?_, ?_, ?_, ?_⟩ <;> decide

/-! ### C8 -/

/-- C8 (amended): fact extraction is a pure function of the text, the regex
results and the current date — two runs whose clocks agree on year and month
produce identical records in every field except (possibly) the stored
`parsed_at` timestamp. (At different clock times the durations and
`total_years_experience` may also change: see the counterexample.) -/
theorem extraction_clock_dependence (n1 n2 : DateTime) (path text : String)
    (rx : ResumeParser.RegexOracle)
    (hy : n1.year = n2.year) (hm : n1.month = n2.month) :
    (ResumeParser.buildFacts n1 path text rx).contact =
      (ResumeParser.buildFacts n2 path text rx).contact ∧
    (ResumeParser.buildFacts n1 path text rx).experience =
      (ResumeParser.buildFacts n2 path text rx).experience ∧
    (ResumeParser.buildFacts n1 path text rx).education =
      (ResumeParser.buildFacts n2 path text rx).education ∧
    (ResumeParser.buildFacts n1 path text rx).skills =
      (ResumeParser.buildFacts n2 path text rx).skills ∧
    (ResumeParser.buildFacts n1 path text rx).certifications =
      (ResumeParser.buildFacts n2 path text rx).certifications ∧
    (ResumeParser.buildFacts n1 path text rx).summary =
      (ResumeParser.buildFacts n2 path text rx).summary ∧
    (ResumeParser.buildFacts n1 path text rx).total_years_experience =
      (ResumeParser.buildFacts n2 path text rx).total_years_experience ∧
    (ResumeParser.buildFacts n1 path text rx).skill_keywords =
      (ResumeParser.buildFacts n2 path text rx).skill_keywords ∧
    (ResumeParser.buildFacts n1 path text rx).raw_text_length =
      (ResumeParser.buildFacts n2 path text rx).raw_text_length ∧
    (ResumeParser.buildFacts n1 path text rx).file_path =
      (ResumeParser.buildFacts n2 path text rx).file_path := by
  have hd : n1.toDate = n2.toDate := by
    cases n1
    cases n2
    simp only [DateTime.toDate] at hy hm ⊢
    rw [hy, hm]
  refine ⟨?_, ?_, ?_, ?_, ?_, ?_, ?_, ?_, ?_, ?_⟩ <;>
    simp [ResumeParser.buildFacts, hd]

/-- Witness for C8 on the "2020 - present" extraction: clocks differing only
in the day produce identical non-timestamp fields. -/
theorem extraction_clock_dependence_witness :
    (ResumeParser.buildFacts ⟨2024, 6, 1⟩ "r.pdf" presentText presentOracle).contact =
      (ResumeParser.buildFacts ⟨2024, 6, 15⟩ "r.pdf" presentText presentOracle).contact ∧
    (ResumeParser.buildFacts ⟨2024, 6, 1⟩ "r.pdf" presentText presentOracle).experience =
      (ResumeParser.buildFacts ⟨2024, 6, 15⟩ "r.pdf" presentText presentOracle).experience ∧
    (ResumeParser.buildFacts ⟨2024, 6, 1⟩ "r.pdf" presentText presentOracle).education =
      (ResumeParser.buildFacts ⟨2024, 6, 15⟩ "r.pdf" presentText presentOracle).education ∧
    (ResumeParser.buildFacts ⟨2024, 6, 1⟩ "r.pdf" presentText presentOracle).skills =
      (ResumeParser.buildFacts ⟨2024, 6, 15⟩ "r.pdf" presentText presentOracle).skills ∧
    (ResumeParser.buildFacts ⟨2024, 6, 1⟩ "r.pdf" presentText presentOracle).certifications =
      (ResumeParser.buildFacts ⟨2024, 6, 15⟩ "r.pdf" presentText presentOracle).certifications ∧
    (ResumeParser.buildFacts ⟨2024, 6, 1⟩ "r.pdf" presentText presentOracle).summary =
      (ResumeParser.buildFacts ⟨2024, 6, 15⟩ "r.pdf" presentText presentOracle).summary ∧
    (ResumeParser.buildFacts ⟨2024, 6, 1⟩ "r.pdf" presentText presentOracle).total_years_experience =
      (ResumeParser.buildFacts ⟨2024, 6, 15⟩ "r.pdf" presentText presentOracle).total_years_experience ∧
    (ResumeParser.buildFacts ⟨2024, 6, 1⟩ "r.pdf" presentText presentOracle).skill_keywords =
      (ResumeParser.buildFacts ⟨2024, 6, 15⟩ "r.pdf" presentText presentOracle).skill_keywords ∧
    (ResumeParser.buildFacts ⟨2024, 6, 1⟩ "r.pdf" presentText presentOracle).raw_text_length =
      (ResumeParser.buildFacts ⟨2024, 6, 15⟩ "r.pdf" presentText presentOracle).raw_text_length ∧
    (ResumeParser.buildFacts ⟨2024, 6, 1⟩ "r.pdf" presentText presentOracle).file_path =
      (ResumeParser.buildFacts ⟨2024, 6, 15⟩ "r.pdf" presentText presentOracle).file_path :=
  extraction_clock_dependence ⟨2024, 6, 1⟩ ⟨2024, 6, 15⟩ "r.pdf" presentText
    presentOracle rfl rfl

/-- C8 (counterexample): on the text "Experience\n2020 - present", two runs
at clock times June 2024 and June 2025 yield facts records that differ in
`total_years_experience` (4.4 vs 5.4 years) — a non-timestamp field — because
"present" resolves to the current date inside `_calculate_duration`. -/
theorem extraction_clock_counterexample :
    (ResumeParser.buildFacts ⟨2024, 6, 1⟩ "r.pdf" presentText
        presentOracle).total_years_experience ≠
      (ResumeParser.buildFacts ⟨2025, 6, 1⟩ "r.pdf" presentText
        presentOracle).total_years_experience := by
  have h1 : ((ResumeParser.extractExperience (DateTime.toDate ⟨2024, 6, 1⟩)
      presentOracle.experienceSection presentOracle.experienceMatches).map
      (fun e => e.duration_months)).sum = 53 := by decide
  have h2 : ((ResumeParser.extractExperience (DateTime.toDate ⟨2025, 6, 1⟩)
      presentOracle.experienceSection presentOracle.experienceMatches).map
      (fun e => e.duration_months)).sum = 65 := by decide
  have key : ∀ l : List ResumeParser.Experience,
      (l.map (fun e => ((e.duration_months : ℚ)))).sum =
        (((l.map (fun e => e.duration_months)).sum : ℤ) : ℚ) := by
    intro l
    induction l with
    | nil => simp
    | cons a t ih => simp [ih]
  show ResumeParser.calcTotalExperience _ ≠ ResumeParser.calcTotalExperience _
  unfold ResumeParser.calcTotalExperience
  rw [key, key, h1, h2]
  norm_num [round1, roundHalfEven, Int.fract, round_eq]

end RecruiterCopilot
